import Mathlib

/-
Verification development for the sentiment-engine frontend.

Shallow embedding of:
  frontend/src/app/page.tsx          (dashboard controller: selection state,
                                      deferred clear timer, sentiment buckets)
  frontend/src/hooks/useSentiment.ts (useCountryDetail composite view model)
  frontend/src/lib/utils.ts          (getSentimentLabel, clamp,
                                      interpolateSentimentColor)
  Globe marker code                  (latLongToVector3)

Numbers that the TypeScript code treats as IEEE doubles are embedded as exact
rationals (the literals 0.2, 0.05, the color anchors and the interpolation
coefficients are all exactly representable), and the geo projector is embedded
over the reals since it uses transcendental functions.  JavaScript Math.round
is round-half-toward-positive-infinity, embedded as jsRound.  JavaScript
truthiness of the expressions that matter here: null and undefined are falsy,
every array (including the empty array) is truthy, every Error object is
truthy; an Option models null/undefined versus a present value.
-/

namespace SentimentEngine

/-- Headline record, from lib/api.ts. -/
structure Headline where
  id : ℤ
  title : String
  source_name : String
  source_type : Option String
  sentiment_score : ℚ
  sentiment_label : String
  url : String
  published_at : Option String
  created_at : Option String
  deriving Repr, DecidableEq

/-- Hourly trend point, from lib/api.ts. -/
structure HourlyTrend where
  hour : String
  sentiment : ℚ
  articles : ℤ
  deriving Repr, DecidableEq

/-- Per-country sentiment entry, from lib/api.ts. -/
structure CountryData where
  country_code : String
  country_name : String
  sentiment_score : ℚ
  article_count : ℤ
  trend : Option ℚ
  deriving Repr, DecidableEq

/-- Country detail payload, from lib/api.ts.  The source_breakdown record is
embedded as an association list. -/
structure CountryDetail where
  country_code : String
  country_name : String
  current_sentiment : ℚ
  article_count : ℤ
  hourly_trend : List HourlyTrend
  top_headlines : List Headline
  source_breakdown : List (String × ℤ)
  deriving Repr, DecidableEq

/-! ## Dashboard controller (page.tsx)

State of the Home component that the selection logic touches: the
selectedCountry and showPanel useState cells, plus the multiset of pending
setTimeout callbacks scheduled by handleCountrySelect(null).  The code never
stores the timer handle, so nothing ever cancels a pending clear; the model
therefore only ever adds to pendingClears on a null selection and removes one
when a timer fires. -/

structure DashState where
  selectedCountry : Option String
  showPanel : Bool
  pendingClears : ℕ
  deriving Repr, DecidableEq

/-- page.tsx handleCountrySelect: a non-null code sets the selection and shows
the panel (scheduling nothing and cancelling nothing); a null code hides the
panel and schedules a deferred setSelectedCountry(null) 200 ms later. -/
def handleCountrySelect (st : DashState) (countryCode : Option String) : DashState :=
  match countryCode with
  | some c => { st with selectedCountry := some c, showPanel := true }
  | none => { st with showPanel := false, pendingClears := st.pendingClears + 1 }

/-- Events the selection state machine reacts to: a call to
handleCountrySelect, or a scheduled clear timer firing. -/
inductive DashEvent where
  | select : Option String → DashEvent
  | fireClear : DashEvent
  deriving Repr, DecidableEq

/-- One step of the dashboard controller.  A firing timer runs
setSelectedCountry(null); it is a no-op if no timer is pending. -/
def dashStep (st : DashState) : DashEvent → DashState
  | DashEvent.select c => handleCountrySelect st c
  | DashEvent.fireClear =>
    match st.pendingClears with
    | 0 => st
    | n + 1 => { st with selectedCountry := none, pendingClears := n }

/-- Initial state of the Home component: useState(null), useState(false). -/
def dashInit : DashState :=
  { selectedCountry := none, showPanel := false, pendingClears := 0 }

/-- Run the controller from the initial state over a sequence of events. -/
def dashRun (evs : List DashEvent) : DashState :=
  evs.foldl dashStep dashInit

/-! ## useCountryDetail hook (hooks/useSentiment.ts)

The hook owns two independent SWR cache entries, one for the country-detail
endpoint and one for the headlines endpoint.  SWR keeps the last good snapshot
across a failed refresh, stores errors separately, and clears the stored error
on a later successful fetch. -/

/-- The two SWR cache entries backing useCountryDetail for a fixed non-null
country code: data and error of the detail fetch, data and error of the
headlines fetch. -/
structure HookState where
  countryData : Option CountryDetail
  countryError : Option String
  headlines : Option (List Headline)
  headlinesError : Option String
  deriving Repr, DecidableEq

/-- Resolution events of the two underlying fetchers, in arrival order. -/
inductive FetchEvent where
  | countryOk : CountryDetail → FetchEvent
  | countryErr : String → FetchEvent
  | headlinesOk : List Headline → FetchEvent
  | headlinesErr : String → FetchEvent
  deriving Repr, DecidableEq

/-- SWR bookkeeping for one resolution: success stores the data and clears the
error for that key; failure stores the error and keeps the stale data. -/
def hookStep (st : HookState) : FetchEvent → HookState
  | FetchEvent.countryOk d => { st with countryData := some d, countryError := none }
  | FetchEvent.countryErr e => { st with countryError := some e }
  | FetchEvent.headlinesOk hs => { st with headlines := some hs, headlinesError := none }
  | FetchEvent.headlinesErr e => { st with headlinesError := some e }

/-- Before anything resolves, both entries are undefined and error-free. -/
def hookInit : HookState :=
  { countryData := none, countryError := none, headlines := none, headlinesError := none }

/-- Run the two fetchers over an arrival-ordered event sequence. -/
def hookRun (evs : List FetchEvent) : HookState :=
  evs.foldl hookStep hookInit

/-- What useCountryDetail returns to its caller (the isLoading flag and the
refresh callback are omitted; no claim here concerns them). -/
structure HookResult where
  data : Option CountryDetail
  error : Option String
  deriving Repr, DecidableEq

/-- useCountryDetail composite view model, lines 61 to 71:
data is countryData with top_headlines replaced by
`headlines || countryData.top_headlines` (the headlines value wins whenever it
is present, because a JavaScript array, even empty, is truthy), or undefined
when countryData is undefined; error is `countryError || headlinesError`. -/
def useCountryDetail (st : HookState) : HookResult :=
  { data :=
      match st.countryData with
      | some cd => some { cd with top_headlines := st.headlines.getD cd.top_headlines }
      | none => none,
    error :=
      match st.countryError with
      | some e => some e
      | none => st.headlinesError }

/-- The first error payload carried by an event sequence, in arrival order:
what the spec sentence "the first of the two errors encountered" denotes. -/
def firstErrorOf : List FetchEvent → Option String
  | [] => none
  | FetchEvent.countryErr e :: _ => some e
  | FetchEvent.headlinesErr e :: _ => some e
  | FetchEvent.countryOk _ :: rest => firstErrorOf rest
  | FetchEvent.headlinesOk _ :: rest => firstErrorOf rest

/-! ## Sentiment buckets (page.tsx lines 55 to 61) -/

/-- page.tsx: countries.filter(c => c.sentiment_score > 0.2). -/
def positiveCountries (countries : List CountryData) : List CountryData :=
  countries.filter (fun c => decide (c.sentiment_score > 0.2))

/-- page.tsx: countries.filter(c => c.sentiment_score < -0.2). -/
def negativeCountries (countries : List CountryData) : List CountryData :=
  countries.filter (fun c => decide (c.sentiment_score < -0.2))

/-- page.tsx: countries.filter(c => c.sentiment_score >= -0.2 && c.sentiment_score <= 0.2). -/
def neutralCountries (countries : List CountryData) : List CountryData :=
  countries.filter (fun c => decide (c.sentiment_score ≥ -0.2) && decide (c.sentiment_score ≤ 0.2))

/-- utils.ts getSentimentLabel. -/
def getSentimentLabel (score : ℚ) : String :=
  if score ≥ 0.2 then "Positive"
  else if score ≥ 0.05 then "Leaning Positive"
  else if score > -0.05 then "Neutral"
  else if score > -0.2 then "Leaning Negative"
  else "Negative"

/-! ## Sentiment color mapper (utils.ts interpolateSentimentColor) -/

/-- An RGB triple with exact rational channels, as the anchor objects
in interpolateSentimentColor. -/
structure RGB where
  r : ℚ
  g : ℚ
  b : ℚ
  deriving Repr, DecidableEq

/-- utils.ts clamp(value, min, max) = Math.min(Math.max(value, min), max). -/
def clamp (value mn mx : ℚ) : ℚ :=
  min (max value mn) mx

/-- JavaScript Math.round: round half toward positive infinity. -/
def jsRound (x : ℚ) : ℤ :=
  ⌊x + 1 / 2⌋

/-- Negative anchor color, rgb hex C4837A. -/
def negative : RGB := { r := 196, g := 131, b := 122 }

/-- Neutral anchor color, rgb hex B8A898. -/
def neutral : RGB := { r := 184, g := 168, b := 152 }

/-- Positive anchor color, rgb hex 6B8E6B. -/
def positive : RGB := { r := 107, g := 142, b := 107 }

/-- The s < 0 branch of interpolateSentimentColor before rounding:
channelwise linear interpolation from the negative anchor to the neutral
anchor with parameter t = s + 1. -/
def negBranch (s : ℚ) : RGB :=
  { r := negative.r + (neutral.r - negative.r) * (s + 1)
  , g := negative.g + (neutral.g - negative.g) * (s + 1)
  , b := negative.b + (neutral.b - negative.b) * (s + 1) }

/-- The s ≥ 0 branch of interpolateSentimentColor before rounding:
channelwise linear interpolation from the neutral anchor to the positive
anchor with parameter t = s. -/
def posBranch (s : ℚ) : RGB :=
  { r := neutral.r + (positive.r - neutral.r) * s
  , g := neutral.g + (positive.g - neutral.g) * s
  , b := neutral.b + (positive.b - neutral.b) * s }

/-- utils.ts interpolateSentimentColor, as the rounded RGB triple that the
returned string carries: clamp the score to the interval from -1 to 1, pick
the branch by the sign, round each channel with Math.round. -/
def interpolateSentimentColor (score : ℚ) : ℤ × ℤ × ℤ :=
  let s := clamp score (-1) 1
  if s < 0 then
    (jsRound (negBranch s).r, jsRound (negBranch s).g, jsRound (negBranch s).b)
  else
    (jsRound (posBranch s).r, jsRound (posBranch s).g, jsRound (posBranch s).b)

/-! ## Geo projector (Globe marker code, latLongToVector3)

The projector composes trigonometric functions, so it is embedded over the
real numbers exactly as written. -/

/-- latLongToVector3(lat, lon, radius): spherical-to-Cartesian conversion with
a 180 degree longitude offset and the y axis polar. -/
noncomputable def latLongToVector3 (lat lon radius : ℝ) : ℝ × ℝ × ℝ :=
  let phi := (90 - lat) * (Real.pi / 180)
  let theta := (lon + 180) * (Real.pi / 180)
  (-radius * Real.sin phi * Real.cos theta,
   radius * Real.cos phi,
   radius * Real.sin phi * Real.sin theta)

/-- A country sitting exactly on the positive threshold score 0.2. -/
def boundaryPos : CountryData :=
  { country_code := "BP", country_name := "Boundary Positive",
    sentiment_score := 0.2, article_count := 1, trend := none }

/-- A country sitting exactly on the negative threshold score -0.2. -/
def boundaryNeg : CountryData :=
  { country_code := "BN", country_name := "Boundary Negative",
    sentiment_score := -0.2, article_count := 1, trend := none }

/-! ## Theorems -/

/-- Claim C1: the code does not satisfy the claim.  handleCountrySelect never
stores the timer handle, so a non-null selection cancels nothing: running
select JP, select null, select US, and then letting the deferred clear fire
leaves selectedCountry equal to null, not US.  The pending clear stomps the
newer selection. -/
theorem handleCountrySelect_pending_clear_stomps :
    dashRun [DashEvent.select (some "JP"), DashEvent.select none,
             DashEvent.select (some "US"), DashEvent.fireClear]
      = { selectedCountry := none, showPanel := true, pendingClears := 0 } ∧
    (dashRun [DashEvent.select (some "JP"), DashEvent.select none,
              DashEvent.select (some "US"), DashEvent.fireClear]).selectedCountry
      ≠ some "US" := by
  constructor
  · rfl
  · intro hcontra
    exact Option.noConfusion hcontra

/-- Claim C2: the invariant fails on a reachable state.  From the initial
state, select JP, select null (panel hidden, clear scheduled), select JP again
(panel shown, nothing cancelled), then the deferred clear fires: the resulting
state has showPanel true and selectedCountry null. -/
theorem panelVisible_invariant_violated :
    (dashRun [DashEvent.select (some "JP"), DashEvent.select none,
              DashEvent.select (some "JP"), DashEvent.fireClear]).showPanel = true ∧
    (dashRun [DashEvent.select (some "JP"), DashEvent.select none,
              DashEvent.select (some "JP"), DashEvent.fireClear]).selectedCountry = none := by
  exact ⟨rfl, rfl⟩

/-- Claim C3: when the detail fetch has resolved, the composite view model
carries the headlines-endpoint list whenever that list is present, and falls
back to the embedded top_headlines of the detail payload otherwise. -/
theorem useCountryDetail_headlines_override (cd : CountryDetail) (hs : List Headline)
    (ce he : Option String) :
    ((useCountryDetail
        { countryData := some cd, countryError := ce,
          headlines := some hs, headlinesError := he }).data.map CountryDetail.top_headlines)
      = some hs ∧
    ((useCountryDetail
        { countryData := some cd, countryError := ce,
          headlines := none, headlinesError := he }).data.map CountryDetail.top_headlines)
      = some cd.top_headlines :=
  ⟨rfl, rfl⟩

/-- Claim C4, counterexample: with the headlines fetch failing first (error H)
and the detail fetch failing second (error C), both errors are present, the
first error encountered in time is H, yet the composite error the hook
exposes is C. -/
theorem useCountryDetail_error_not_first_encountered :
    (hookRun [FetchEvent.headlinesErr "H", FetchEvent.countryErr "C"]).countryError.isSome
      = true ∧
    (hookRun [FetchEvent.headlinesErr "H", FetchEvent.countryErr "C"]).headlinesError.isSome
      = true ∧
    firstErrorOf [FetchEvent.headlinesErr "H", FetchEvent.countryErr "C"] = some "H" ∧
    (useCountryDetail (hookRun [FetchEvent.headlinesErr "H", FetchEvent.countryErr "C"])).error
      = some "C" ∧
    (useCountryDetail (hookRun [FetchEvent.headlinesErr "H", FetchEvent.countryErr "C"])).error
      ≠ firstErrorOf [FetchEvent.headlinesErr "H", FetchEvent.countryErr "C"] := by
  refine ⟨rfl, rfl, rfl, rfl, ?_⟩
  decide

/-- Claim C4, amended: the composite error follows a fixed priority, for every
arrival order of fetch events: it is the detail-fetch error whenever one is
stored, and only when the detail fetch has no stored error is it the
headlines-fetch error. -/
theorem useCountryDetail_error_fixed_priority (evs : List FetchEvent) :
    ((hookRun evs).countryError.isSome = true →
      (useCountryDetail (hookRun evs)).error = (hookRun evs).countryError) ∧
    ((hookRun evs).countryError = none →
      (useCountryDetail (hookRun evs)).error = (hookRun evs).headlinesError) := by
  constructor
  · intro h
    cases hc : (hookRun evs).countryError with
    | none => rw [hc] at h; exact absurd h (by simp)
    | some e => simp [useCountryDetail, hc]
  · intro h
    simp [useCountryDetail, h]

/-- Claim C4, witness for the amended theorem at a concrete event sequence. -/
theorem useCountryDetail_error_fixed_priority_witness :
    (useCountryDetail (hookRun [FetchEvent.headlinesErr "H", FetchEvent.countryErr "C"])).error
      = (hookRun [FetchEvent.headlinesErr "H", FetchEvent.countryErr "C"]).countryError :=
  (useCountryDetail_error_fixed_priority
    [FetchEvent.headlinesErr "H", FetchEvent.countryErr "C"]).1 (by decide)

/-- Claim C9: at score exactly 0.2 the label function says Positive and at
exactly -0.2 it says Negative, while the bucket partition of the dashboard
puts both of those countries in the neutral bucket, because the buckets use
strict threshold comparisons and the label function does not. -/
theorem getSentimentLabel_bucket_boundary_mismatch :
    getSentimentLabel 0.2 = "Positive" ∧
    getSentimentLabel (-0.2) = "Negative" ∧
    positiveCountries [boundaryPos] = [] ∧
    negativeCountries [boundaryNeg] = [] ∧
    neutralCountries [boundaryPos, boundaryNeg] = [boundaryPos, boundaryNeg] := by
  refine ⟨?_, ?_, ?_, ?_, ?_⟩ <;>
    norm_num [getSentimentLabel, positiveCountries, negativeCountries, neutralCountries,
      boundaryPos, boundaryNeg, List.filter]

/-- Claim C10: when the detail fetch has resolved and the headlines endpoint
has resolved to the empty list, the composite headline list is the empty list;
the fallback to the embedded headlines happens only when the headlines value
is absent. -/
theorem useCountryDetail_empty_headlines_kept (cd : CountryDetail) (ce he : Option String) :
    ((useCountryDetail
        { countryData := some cd, countryError := ce,
          headlines := some [], headlinesError := he }).data.map CountryDetail.top_headlines)
      = some ([] : List Headline) ∧
    ((useCountryDetail
        { countryData := some cd, countryError := ce,
          headlines := none, headlinesError := he }).data.map CountryDetail.top_headlines)
      = some cd.top_headlines :=
  ⟨rfl, rfl⟩

theorem filter_disjoint {α : Type} (xs ys : List α) (p q : α → Bool)
    (h : ∀ a, p a = true → q a = true → False) :
    List.Disjoint (xs.filter p) (ys.filter q) := by
  intro a h1 h2
  rw [List.mem_filter] at h1 h2
  exact h a h1.2 h2.2

/-- Claim C5: for every input list, the three sentiment buckets of the
dashboard are pairwise disjoint and their sizes sum to the size of the
input list. -/
theorem sentimentBuckets_partition (countries : List CountryData) :
    ((positiveCountries countries).length + (negativeCountries countries).length
      + (neutralCountries countries).length = countries.length) ∧
    List.Disjoint (positiveCountries countries) (negativeCountries countries) ∧
    List.Disjoint (positiveCountries countries) (neutralCountries countries) ∧
    List.Disjoint (negativeCountries countries) (neutralCountries countries) := by
  refine ⟨?_, ?_, ?_, ?_⟩
  · induction countries with
    | nil => rfl
    | cons c cs ih =>
      simp only [positiveCountries, negativeCountries, neutralCountries,
        List.filter_cons, decide_eq_true_eq, Bool.and_eq_true] at ih ⊢
      by_cases hp : c.sentiment_score > (0.2 : ℚ)
      · have h1 : ¬(c.sentiment_score < -0.2) := by linarith
        have h2 : c.sentiment_score ≤ (0.2 : ℚ) → False := by intro hc; linarith
        rw [if_pos hp, if_neg h1, if_neg (fun hc => h2 hc.2)]
        simp only [List.length_cons]
        omega
      · by_cases hn : c.sentiment_score < (-0.2 : ℚ)
        · have h1 : ((-0.2 : ℚ) ≤ c.sentiment_score) → False := by intro hc; linarith
          rw [if_neg hp, if_pos hn, if_neg (fun hc => h1 hc.1)]
          simp only [List.length_cons]
          omega
        · have h1 : (-0.2 : ℚ) ≤ c.sentiment_score := by linarith
          have h2 : c.sentiment_score ≤ (0.2 : ℚ) := by linarith
          rw [if_neg hp, if_neg hn, if_pos ⟨h1, h2⟩]
          simp only [List.length_cons]
          omega
  · refine filter_disjoint _ _ _ _ ?_
    intro a ha hb
    have ha1 := of_decide_eq_true ha
    have hb1 := of_decide_eq_true hb
    linarith
  · refine filter_disjoint _ _ _ _ ?_
    intro a ha hb
    have ha1 := of_decide_eq_true ha
    rw [Bool.and_eq_true] at hb
    have hb1 := of_decide_eq_true hb.2
    linarith
  · refine filter_disjoint _ _ _ _ ?_
    intro a ha hb
    have ha1 := of_decide_eq_true ha
    rw [Bool.and_eq_true] at hb
    have hb1 := of_decide_eq_true hb.1
    linarith

theorem jsRound_mono {x y : ℚ} (h : x ≤ y) : jsRound x ≤ jsRound y :=
  Int.floor_le_floor (by linarith)

theorem clamp_mono {x y mn mx : ℚ} (h : x ≤ y) : clamp x mn mx ≤ clamp y mn mx :=
  min_le_min (max_le_max h le_rfl) le_rfl

theorem interpolate_eval_nonpos {s : ℚ} (h : s ≤ 0) :
    interpolateSentimentColor s =
      (jsRound (negBranch (clamp s (-1) 1)).r, jsRound (negBranch (clamp s (-1) 1)).g,
        jsRound (negBranch (clamp s (-1) 1)).b) := by
  unfold interpolateSentimentColor
  by_cases hc : clamp s (-1) 1 < 0
  · rw [if_pos hc]
  · have hle : clamp s (-1) 1 ≤ 0 := le_trans (min_le_left _ _) (max_le h (by norm_num))
    have h0 : clamp s (-1) 1 = 0 := le_antisymm hle (not_lt.mp hc)
    rw [if_neg hc, h0]
    norm_num [negBranch, posBranch, negative, neutral, positive]

theorem interpolate_eval_nonneg {s : ℚ} (h : 0 ≤ s) :
    interpolateSentimentColor s =
      (jsRound (posBranch (clamp s (-1) 1)).r, jsRound (posBranch (clamp s (-1) 1)).g,
        jsRound (posBranch (clamp s (-1) 1)).b) := by
  have hge : (0 : ℚ) ≤ clamp s (-1) 1 := le_min (le_trans h (le_max_left _ _)) (by norm_num)
  unfold interpolateSentimentColor
  rw [if_neg (not_lt.mpr hge)]

/-- Claim C6: the color mapper hits the three anchor colors exactly at the
scores -1, 0 and 1, and it is continuous at 0: the pre-rounding negative
branch tends to the neutral anchor as the score approaches 0 from below, and
already equals it at 0, exactly as the non-negative branch does. -/
theorem interpolateSentimentColor_anchors_continuous :
    interpolateSentimentColor (-1) = (196, 131, 122) ∧
    interpolateSentimentColor 0 = (184, 168, 152) ∧
    interpolateSentimentColor 1 = (107, 142, 107) ∧
    negBranch 0 = neutral ∧
    posBranch 0 = neutral ∧
    Filter.Tendsto (fun s : ℚ => ((negBranch s).r, (negBranch s).g, (negBranch s).b))
      (nhdsWithin 0 (Set.Iio 0)) (nhds (neutral.r, neutral.g, neutral.b)) := by
  refine ⟨?_, ?_, ?_, ?_, ?_, ?_⟩
  · norm_num [interpolateSentimentColor, clamp, jsRound, negBranch, posBranch, negative,
      neutral, positive]
  · norm_num [interpolateSentimentColor, clamp, jsRound, negBranch, posBranch, negative,
      neutral, positive]
  · norm_num [interpolateSentimentColor, clamp, jsRound, negBranch, posBranch, negative,
      neutral, positive]
  · norm_num [negBranch, negative, neutral]
  · norm_num [posBranch, positive, neutral]
  · have hc : Continuous (fun s : ℚ => ((negBranch s).r, (negBranch s).g, (negBranch s).b)) := by
      unfold negBranch
      continuity
    have ht : Filter.Tendsto (fun s : ℚ => ((negBranch s).r, (negBranch s).g, (negBranch s).b))
        (nhds 0) (nhds ((negBranch 0).r, (negBranch 0).g, (negBranch 0).b)) := hc.tendsto 0
    have h0 : ((negBranch 0).r, (negBranch 0).g, (negBranch 0).b)
        = (neutral.r, neutral.g, neutral.b) := by
      norm_num [negBranch, negative, neutral]
    rw [h0] at ht
    exact ht.mono_left nhdsWithin_le_nhds

/-- Claim C7: within one branch of the color mapper the rounded output is
monotone per channel with a fixed direction: on the non-positive branch red is
non-increasing while green and blue are non-decreasing, and on the
non-negative branch all three channels are non-increasing. -/
theorem interpolateSentimentColor_monotone (s1 s2 : ℚ) (h : s1 < s2) :
    (s2 ≤ 0 →
      (interpolateSentimentColor s2).1 ≤ (interpolateSentimentColor s1).1 ∧
      (interpolateSentimentColor s1).2.1 ≤ (interpolateSentimentColor s2).2.1 ∧
      (interpolateSentimentColor s1).2.2 ≤ (interpolateSentimentColor s2).2.2) ∧
    (0 ≤ s1 →
      (interpolateSentimentColor s2).1 ≤ (interpolateSentimentColor s1).1 ∧
      (interpolateSentimentColor s2).2.1 ≤ (interpolateSentimentColor s1).2.1 ∧
      (interpolateSentimentColor s2).2.2 ≤ (interpolateSentimentColor s1).2.2) := by
  constructor
  · intro h2
    have h1 : s1 ≤ 0 := le_trans h.le h2
    have hcl : clamp s1 (-1) 1 ≤ clamp s2 (-1) 1 := clamp_mono h.le
    rw [interpolate_eval_nonpos h1, interpolate_eval_nonpos h2]
    dsimp only
    refine ⟨jsRound_mono ?_, jsRound_mono ?_, jsRound_mono ?_⟩ <;>
      · simp only [negBranch, negative, neutral]
        linarith
  · intro h1
    have h2 : (0 : ℚ) ≤ s2 := le_trans h1 h.le
    have hcl : clamp s1 (-1) 1 ≤ clamp s2 (-1) 1 := clamp_mono h.le
    rw [interpolate_eval_nonneg h1, interpolate_eval_nonneg h2]
    dsimp only
    refine ⟨jsRound_mono ?_, jsRound_mono ?_, jsRound_mono ?_⟩ <;>
      · simp only [posBranch, neutral, positive]
        linarith

/-- Claim C7, witness at the concrete branch endpoints. -/
theorem interpolateSentimentColor_monotone_witness :
    (((-1 : ℚ) < 0) ∧
      (interpolateSentimentColor 0).1 ≤ (interpolateSentimentColor (-1)).1 ∧
      (interpolateSentimentColor (-1)).2.1 ≤ (interpolateSentimentColor 0).2.1 ∧
      (interpolateSentimentColor (-1)).2.2 ≤ (interpolateSentimentColor 0).2.2) ∧
    (((0 : ℚ) < 1) ∧
      (interpolateSentimentColor 1).1 ≤ (interpolateSentimentColor 0).1 ∧
      (interpolateSentimentColor 1).2.1 ≤ (interpolateSentimentColor 0).2.1 ∧
      (interpolateSentimentColor 1).2.2 ≤ (interpolateSentimentColor 0).2.2) :=
  ⟨⟨by norm_num,
      (interpolateSentimentColor_monotone (-1) 0 (by norm_num)).1 (by norm_num)⟩,
    ⟨by norm_num,
      (interpolateSentimentColor_monotone 0 1 (by norm_num)).2 (by norm_num)⟩⟩

/-- Claim C8: over the exact real-valued embedding, the projected point lies
on the sphere of the given radius for every latitude in the valid band,
longitude in the valid band, and positive radius. -/
theorem latLongToVector3_on_sphere (lat lon radius : ℝ)
    (hlat1 : -90 ≤ lat) (hlat2 : lat ≤ 90) (hlon1 : -180 ≤ lon) (hlon2 : lon ≤ 180)
    (hr : 0 < radius) :
    (latLongToVector3 lat lon radius).1 ^ 2 + (latLongToVector3 lat lon radius).2.1 ^ 2 +
      (latLongToVector3 lat lon radius).2.2 ^ 2 = radius ^ 2 := by
  unfold latLongToVector3
  dsimp only
  have hphi := Real.sin_sq_add_cos_sq ((90 - lat) * (Real.pi / 180))
  have htheta := Real.sin_sq_add_cos_sq ((lon + 180) * (Real.pi / 180))
  linear_combination
    radius ^ 2 * (Real.sin ((90 - lat) * (Real.pi / 180))) ^ 2 * htheta
      + radius ^ 2 * hphi

/-- Claim C8, witness at latitude 0, longitude 0, radius 1. -/
theorem latLongToVector3_on_sphere_witness :
    ((-90 : ℝ) ≤ 0 ∧ (0 : ℝ) ≤ 90 ∧ (-180 : ℝ) ≤ 0 ∧ (0 : ℝ) ≤ 180 ∧ (0 : ℝ) < 1) ∧
    (latLongToVector3 0 0 1).1 ^ 2 + (latLongToVector3 0 0 1).2.1 ^ 2 +
      (latLongToVector3 0 0 1).2.2 ^ 2 = 1 ^ 2 :=
  ⟨⟨by norm_num, by norm_num, by norm_num, by norm_num, by norm_num⟩,
    latLongToVector3_on_sphere 0 0 1 (by norm_num) (by norm_num) (by norm_num) (by norm_num)
      (by norm_num)⟩

end SentimentEngine
